import Mathlib

/-!
Shallow embedding of the symptobackend server (`src/server.js`), a CRUD
backend over a per-user document: auth guard (`verifyToken`), register/login,
profile get/update (with image upload), and three embedded sub-lists
(`savedData`, `newsHistory`, `appointmentHistory`) with add / list / delete
endpoints.

Modelling conventions:
- A JS value that is `string | undefined` is `Option String`; JS `===`
  between two such values is `Option` equality (`undefined === undefined`
  is true).
- Timestamps (`Date.now()`, `savedAt`, `addedAt`) are `Nat`.
- Generated Mongo sub-ids are `Nat`, supplied to each mutation as a
  parameter.
- `jwt.verify` under the ambient shared secret is an abstract parameter
  `verify : String → Option Nat` (`some id` on success, `none` when the
  library throws); `jwt.sign` is an abstract `sign : Nat → String`.
-/

namespace Sympto

/-- Model of the JS `x || d` defaulting idiom on a `string | undefined`
value: both `undefined` and the empty string are falsy. -/
def jsOr : Option String → String → String
  | none, d => d
  | some s, d => if s = "" then d else s

/-- Model of Node `path.extname`: the substring of the last path segment
from its last dot to the end; empty when that segment has no dot, or when
its only dot is its first character. -/
def extname (p : String) : String :=
  let base := (p.splitOn "/").getLastD ""
  match base.splitOn "." with
  | [] => ""
  | [_] => ""
  | "" :: rest => if rest.length = 1 then "" else "." ++ rest.getLastD ""
  | parts => "." ++ parts.getLastD ""

/-- The `pageData` object sent to `POST /api/save-page` and stored verbatim
as `content`. Only its `url` field is inspected by the server; `rest`
stands for the remainder of the arbitrary object. -/
structure PageData where
  url : Option String
  rest : String
deriving DecidableEq, Repr

/-- An entry of the `savedData` sub-list (schema lines 72-79 of
`server.js`): `content` is the stored page object (absent when the caller
sent none), `savedAt` the server-assigned timestamp, `subId` the generated
sub-document id. -/
structure SavedEntry where
  subId : Nat
  title : String
  informationType : String
  content : Option PageData
  savedAt : Nat
deriving DecidableEq, Repr

/-- Model of the JS access `item.content?.url`: `undefined` when `content`
is absent or has no `url`. -/
def contentUrl (e : SavedEntry) : Option String :=
  e.content.bind PageData.url

/-- An entry of the `newsHistory` sub-list (schema lines 82-90). -/
structure NewsEntry where
  subId : Nat
  title : Option String
  source : Option String
  date : Option String
  url : Option String
  addedAt : Nat
deriving DecidableEq, Repr

/-- An entry of the `appointmentHistory` sub-list (schema lines 93-101);
`status` defaults to `"Upcoming"` when the request omitted it. -/
structure ApptEntry where
  subId : Nat
  doctor : Option String
  type : Option String
  date : Option String
  status : String
  addedAt : Nat
deriving DecidableEq, Repr

/-- The per-user document (schema lines 51-102). Profile fields are
`Option String`: registration stores the schema default `""` (`some ""`),
while the update-profile overwrite can make a field absent (`none`). -/
structure User where
  id : Nat
  fullName : Option String
  email : Option String
  password : Option String
  phone : Option String
  address : Option String
  gender : Option String
  dob : Option String
  profileImg : Option String
  bloodType : Option String
  height : Option String
  weight : Option String
  allergies : Option String
  conditions : Option String
  savedData : List SavedEntry
  newsHistory : List NewsEntry
  appointmentHistory : List ApptEntry
deriving DecidableEq, Repr

/-- `POST /api/register` (lines 109-123): a fresh document with the given
identity and the schema defaults (`""` for every profile string, empty
sub-lists). -/
def registerUser (id : Nat) (fullName email password : String) : User :=
  { id := id, fullName := some fullName, email := some email,
    password := some password,
    phone := some "", address := some "", gender := some "", dob := some "",
    profileImg := some "", bloodType := some "", height := some "",
    weight := some "", allergies := some "", conditions := some "",
    savedData := [], newsHistory := [], appointmentHistory := [] }

/-- Outcome of the auth middleware: reject with 401, reject with 400, or
attach the decoded identity to the request and continue. -/
inductive AuthOutcome where
  | unauthenticated
  | invalidToken
  | authed (id : Nat)
deriving DecidableEq, Repr

/-- Line 41: `token.startsWith("Bearer ") ? token.slice(7, token.length) :
token`, with the JS string operations modelled on the character sequence of
the string. -/
def stripBearer (t : String) : String :=
  if "Bearer ".data.isPrefixOf t.data then (t.data.drop 7).asString else t

/-- `verifyToken` middleware (lines 36-48). `header` is
`req.headers['authorization']` (`none` when the header is absent). The JS
guard `if (!token)` also fires on the empty string, which is falsy. -/
def verifyToken (verify : String → Option Nat) (header : Option String) :
    AuthOutcome :=
  match header with
  | none => .unauthenticated
  | some t =>
    if t = "" then .unauthenticated
    else
      match verify (stripBearer t) with
      | some i => .authed i
      | none => .invalidToken

/-- Result of `POST /api/login` (lines 126-144): a 400/500 failure with a
message, or a token plus the minimal user summary. -/
inductive LoginResult where
  | failure (status : Nat) (message : String)
  | success (token : String) (id : Nat) (name email : Option String)
deriving DecidableEq, Repr

/-- `User.findOne({ email })`: the first document whose stored email equals
the queried string. -/
def findByEmail (db : List User) (email : String) : Option User :=
  db.find? fun u => u.email == some email

/-- `POST /api/login` handler (lines 126-144): look up by email; on a
missing user or a plaintext password mismatch answer
400 `"Invalid email or password."`; otherwise sign a token over the user id
and return it with `{id, name, email}`. -/
def login (db : List User) (sign : Nat → String) (email password : String) :
    LoginResult :=
  match findByEmail db email with
  | none => .failure 400 "Invalid email or password."
  | some u =>
    if u.password == some password then
      .success (sign u.id) u.id u.fullName u.email
    else
      .failure 400 "Invalid email or password."

/-- A plain HTTP status/message response. -/
structure Resp where
  status : Nat
  message : String
deriving DecidableEq, Repr

/-- The eleven text fields destructured from `req.body` by
`PUT /api/update-profile` (lines 179-182); a field the caller did not send
destructures to `undefined` (`none`). -/
structure ProfileBody where
  fullName : Option String
  email : Option String
  phone : Option String
  address : Option String
  gender : Option String
  dob : Option String
  bloodType : Option String
  height : Option String
  weight : Option String
  allergies : Option String
  conditions : Option String
deriving DecidableEq, Repr

/-- The multer file object; only `originalname` is consulted by the
filename callback (line 25). -/
structure UploadedFile where
  originalname : String
deriving DecidableEq, Repr

/-- Multer `filename` callback (line 25):
`'profile-' + Date.now() + path.extname(file.originalname)`. -/
def multerFilename (now : Nat) (f : UploadedFile) : String :=
  "profile-" ++ toString now ++ extname f.originalname

/-- The `updateData` object of `PUT /api/update-profile` (lines 187-194):
the eleven destructured keys are always present (value possibly
`undefined`); the `profileImg` key exists only when a file was uploaded
(`none` = key absent, `some p` = key present with path `p`). -/
structure UpdateData where
  fullName : Option String
  email : Option String
  phone : Option String
  address : Option String
  gender : Option String
  dob : Option String
  bloodType : Option String
  height : Option String
  weight : Option String
  allergies : Option String
  conditions : Option String
  profileImg : Option String
deriving DecidableEq, Repr

/-- Lines 187-194: build `updateData` from the destructured body fields,
adding `profileImg := "/uploads/" + filename` only when `req.file` exists. -/
def buildUpdateData (body : ProfileBody) (file : Option UploadedFile)
    (now : Nat) : UpdateData :=
  { fullName := body.fullName, email := body.email, phone := body.phone,
    address := body.address, gender := body.gender, dob := body.dob,
    bloodType := body.bloodType, height := body.height,
    weight := body.weight, allergies := body.allergies,
    conditions := body.conditions,
    profileImg := file.map fun f => "/uploads/" ++ multerFilename now f }

/-- Modelled from the spec: the User Store's application of an
update-profile payload (`User.findByIdAndUpdate(userId, updateData)`,
lines 196-200). The database layer is not part of `src/`; per spec §4.5
the payload is "applied ... as a full-document field overwrite — any field
not present in the request body is overwritten with `undefined`/absence":
every key present in the payload overwrites the stored field (an
`undefined` value clears it to absence), keys absent from the payload
(`profileImg` without a file, and every non-payload field such as
`password` and the three sub-lists) are left unchanged. -/
def applyUpdate (u : User) (d : UpdateData) : User :=
  { u with
    fullName := d.fullName, email := d.email, phone := d.phone,
    address := d.address, gender := d.gender, dob := d.dob,
    bloodType := d.bloodType, height := d.height, weight := d.weight,
    allergies := d.allergies, conditions := d.conditions,
    profileImg :=
      match d.profileImg with
      | none => u.profileImg
      | some p => some p }

/-- `PUT /api/update-profile` (lines 176-204) acting on a resolved user
document. -/
def updateProfile (u : User) (body : ProfileBody) (file : Option UploadedFile)
    (now : Nat) : User :=
  applyUpdate u (buildUpdateData body file now)

/-- The body of `POST /api/save-page` (line 215). The handler reads
`pageData.url` unconditionally, so `pageData` itself is present. -/
structure SaveBody where
  title : Option String
  pageData : PageData
  informationType : Option String
deriving DecidableEq, Repr

/-- `POST /api/save-page` handler (lines 213-235) on a resolved user:
reject with 400 when some existing entry satisfies
`item.content?.url === pageData.url`; otherwise `$push` a new entry with
defaulted title/informationType, `content := pageData`, and a
server-assigned timestamp and sub-id. -/
def savePage (u : User) (b : SaveBody) (now subId : Nat) : User × Resp :=
  let urlToCheck := b.pageData.url
  let isDuplicate := u.savedData.any fun item => contentUrl item == urlToCheck
  if isDuplicate then
    (u, ⟨400, "You have already saved this article."⟩)
  else
    ({ u with savedData := u.savedData ++
        [{ subId := subId, title := jsOr b.title "Untitled",
           informationType := jsOr b.informationType "General",
           content := some b.pageData, savedAt := now }] },
     ⟨200, "Page saved successfully!"⟩)

/-- `DELETE /api/my-saved-pages/:id` (lines 250-257):
`$pull: { savedData: { _id: id } }` removes every matching entry and the
handler answers success unconditionally. -/
def deleteSavedPage (u : User) (i : Nat) : User × Resp :=
  ({ u with savedData := u.savedData.filter fun e => e.subId != i },
   ⟨200, "Item deleted successfully"⟩)

/-- The body of `POST /api/news` (line 264). -/
structure NewsBody where
  title : Option String
  source : Option String
  date : Option String
  url : Option String
deriving DecidableEq, Repr

/-- `POST /api/news` (lines 262-272): `$push` the four body fields with a
server-assigned timestamp and sub-id. -/
def addNews (u : User) (b : NewsBody) (now subId : Nat) : User × Resp :=
  ({ u with newsHistory := u.newsHistory ++
      [{ subId := subId, title := b.title, source := b.source,
         date := b.date, url := b.url, addedAt := now }] },
   ⟨200, "News saved successfully!"⟩)

/-- `DELETE /api/news/:id` (lines 285-294). -/
def deleteNews (u : User) (i : Nat) : User × Resp :=
  ({ u with newsHistory := u.newsHistory.filter fun e => e.subId != i },
   ⟨200, "News deleted"⟩)

/-- The body of `POST /api/appointments` (line 301). -/
structure ApptBody where
  doctor : Option String
  type : Option String
  date : Option String
  status : Option String
deriving DecidableEq, Repr

/-- `POST /api/appointments` (lines 299-309): `$push` the four body fields;
an omitted `status` takes the schema default `"Upcoming"` (line 98). -/
def addAppointment (u : User) (b : ApptBody) (now subId : Nat) : User × Resp :=
  ({ u with appointmentHistory := u.appointmentHistory ++
      [{ subId := subId, doctor := b.doctor, type := b.type, date := b.date,
         status := b.status.getD "Upcoming", addedAt := now }] },
   ⟨200, "Appointment added!"⟩)

/-- `DELETE /api/appointments/:id` (lines 322-331). -/
def deleteAppointment (u : User) (i : Nat) : User × Resp :=
  ({ u with appointmentHistory :=
      u.appointmentHistory.filter fun e => e.subId != i },
   ⟨200, "Appointment deleted"⟩)

/-- The comparator of line 242, `(a, b) => new Date(b.savedAt) - new
Date(a.savedAt)`, as the "a may stay before b" relation: the comparator is
non-positive exactly when `b.savedAt ≤ a.savedAt`. -/
def savedLe (a b : SavedEntry) : Bool :=
  decide (b.savedAt ≤ a.savedAt)

/-- Line 242: `user.savedData.sort(...)` — JS `Array.prototype.sort` is a
stable sort by the comparator, modelled by the stable `List.mergeSort`. -/
def sortSaved (l : List SavedEntry) : List SavedEntry :=
  l.mergeSort savedLe

/-- Result of a GET handler: a 200 payload, or a status/message failure. -/
inductive HResult (α : Type) where
  | ok (payload : α)
  | err (status : Nat) (message : String)
deriving DecidableEq, Repr

/-- The HTTP status of a GET result (`res.json` answers 200). -/
def HResult.status : HResult α → Nat
  | .ok _ => 200
  | .err s _ => s

/-- `User.findById`: the document with the given id, if any. -/
def findById (db : List User) (uid : Nat) : Option User :=
  db.find? fun u => u.id = uid

/-- The object shaped by `GET /api/user-profile` (lines 152-168): `name`
and `fullName` both carry the stored `fullName`. -/
structure ProfileView where
  id : Nat
  name : Option String
  fullName : Option String
  email : Option String
  phone : Option String
  address : Option String
  gender : Option String
  dob : Option String
  profileImg : Option String
  bloodType : Option String
  height : Option String
  weight : Option String
  allergies : Option String
  conditions : Option String
deriving DecidableEq, Repr

/-- The response body of `GET /api/user-profile` for a resolved user. -/
def profileView (u : User) : ProfileView :=
  { id := u.id, name := u.fullName, fullName := u.fullName,
    email := u.email, phone := u.phone, address := u.address,
    gender := u.gender, dob := u.dob, profileImg := u.profileImg,
    bloodType := u.bloodType, height := u.height, weight := u.weight,
    allergies := u.allergies, conditions := u.conditions }

/-- `GET /api/user-profile` handler (lines 147-173): explicit 404 when the
id does not resolve. -/
def getUserProfile (db : List User) (uid : Nat) : HResult ProfileView :=
  match findById db uid with
  | none => .err 404 "User not found"
  | some u => .ok (profileView u)

/-- `GET /api/my-saved-pages` handler (lines 238-247): explicit 404 when
the id does not resolve, otherwise the list sorted descending by
`savedAt`. -/
def getMySavedPages (db : List User) (uid : Nat) : HResult (List SavedEntry) :=
  match findById db uid with
  | none => .err 404 "User not found"
  | some u => .ok (sortSaved u.savedData)

/-- `GET /api/news` handler (lines 275-282): when the id does not resolve,
`user.newsHistory` dereferences `null`, the TypeError is caught, and the
catch block answers 500 `"Error fetching news"`; otherwise the list is
returned reversed. -/
def getNews (db : List User) (uid : Nat) : HResult (List NewsEntry) :=
  match findById db uid with
  | none => .err 500 "Error fetching news"
  | some u => .ok u.newsHistory.reverse

/-- `GET /api/appointments` handler (lines 312-319): same `null`
dereference as `GET /api/news` on a missing user, caught as 500
`"Error fetching appointments"`; otherwise the list is returned
reversed. -/
def getAppointments (db : List User) (uid : Nat) : HResult (List ApptEntry) :=
  match findById db uid with
  | none => .err 500 "Error fetching appointments"
  | some u => .ok u.appointmentHistory.reverse

/-- The user documents producible by the exposed endpoints: registration
followed by any sequence of the mutating handlers. -/
inductive Reachable : User → Prop where
  | register (id : Nat) (fullName email password : String) :
      Reachable (registerUser id fullName email password)
  | update (u : User) (body : ProfileBody) (file : Option UploadedFile)
      (now : Nat) :
      Reachable u → Reachable (updateProfile u body file now)
  | save (u : User) (b : SaveBody) (now subId : Nat) :
      Reachable u → Reachable (savePage u b now subId).1
  | deletePage (u : User) (i : Nat) :
      Reachable u → Reachable (deleteSavedPage u i).1
  | news (u : User) (b : NewsBody) (now subId : Nat) :
      Reachable u → Reachable (addNews u b now subId).1
  | dropNews (u : User) (i : Nat) :
      Reachable u → Reachable (deleteNews u i).1
  | appt (u : User) (b : ApptBody) (now subId : Nat) :
      Reachable u → Reachable (addAppointment u b now subId).1
  | dropAppt (u : User) (i : Nat) :
      Reachable u → Reachable (deleteAppointment u i).1

/-- Spec §3 invariant on `savedData`: no two entries share the same
`content.url` once present. -/
def NoDupUrls (u : User) : Prop :=
  u.savedData.Pairwise fun a b =>
    ∀ s : String, contentUrl a = some s → contentUrl b ≠ some s

/-! ## Helper lemmas -/

lemma savedLe_trans (a b c : SavedEntry) :
    savedLe a b → savedLe b c → savedLe a c := by
  simp only [savedLe, decide_eq_true_eq]
  omega

lemma savedLe_total (a b : SavedEntry) : savedLe a b || savedLe b a := by
  simp only [savedLe, Bool.or_eq_true, decide_eq_true_eq]
  omega

lemma mergeSort_pair {α : Type} (le : α → α → Bool) (a b : α)
    (h : le a b = false) : [a, b].mergeSort le = [b, a] := by
  rw [List.mergeSort]
  simp [List.splitInTwo, List.splitAt, List.splitAt.go, List.merge, h]

/-! ## Theorems -/

/-- C1: every update-profile request builds an update payload holding
exactly the eleven submitted profile fields (with no file, the
`profileImg` key is absent); applying it overwrites each of the eleven
stored fields with the submitted value — a field absent from the request
body (`none`) is overwritten with absence — and a subsequent get-profile
reflects each field exactly as submitted, hence omitted fields as absent. -/
theorem update_profile_overwrites_omitted_fields (u : User)
    (body : ProfileBody) (file : Option UploadedFile) (now : Nat) :
    (buildUpdateData body none now =
      { fullName := body.fullName, email := body.email, phone := body.phone,
        address := body.address, gender := body.gender, dob := body.dob,
        bloodType := body.bloodType, height := body.height,
        weight := body.weight, allergies := body.allergies,
        conditions := body.conditions, profileImg := none }) ∧
    ((updateProfile u body file now).fullName = body.fullName ∧
      (updateProfile u body file now).email = body.email ∧
      (updateProfile u body file now).phone = body.phone ∧
      (updateProfile u body file now).address = body.address ∧
      (updateProfile u body file now).gender = body.gender ∧
      (updateProfile u body file now).dob = body.dob ∧
      (updateProfile u body file now).bloodType = body.bloodType ∧
      (updateProfile u body file now).height = body.height ∧
      (updateProfile u body file now).weight = body.weight ∧
      (updateProfile u body file now).allergies = body.allergies ∧
      (updateProfile u body file now).conditions = body.conditions) ∧
    ((profileView (updateProfile u body file now)).fullName = body.fullName ∧
      (profileView (updateProfile u body file now)).email = body.email ∧
      (profileView (updateProfile u body file now)).phone = body.phone ∧
      (profileView (updateProfile u body file now)).bloodType = body.bloodType) :=
  ⟨rfl,
   ⟨rfl, rfl, rfl, rfl, rfl, rfl, rfl, rfl, rfl, rfl, rfl⟩,
   ⟨rfl, rfl, rfl, rfl⟩⟩

/-- C8: an update-profile request with an image file puts `profileImg` in
the payload, set to the server-controlled path
`/uploads/profile-<timestamp><original extension>`, and the stored user
gets that path; without a file the `profileImg` key is absent from the
payload and the stored value is unchanged. -/
theorem profile_image_update_semantics (u : User) (body : ProfileBody)
    (now : Nat) (f : UploadedFile) :
    (buildUpdateData body (some f) now).profileImg =
      some ("/uploads/profile-" ++ toString now ++ extname f.originalname) ∧
    (updateProfile u body (some f) now).profileImg =
      some ("/uploads/profile-" ++ toString now ++ extname f.originalname) ∧
    (buildUpdateData body none now).profileImg = none ∧
    (updateProfile u body none now).profileImg = u.profileImg :=
  ⟨rfl, rfl, rfl, rfl⟩

/-- C6 counterexample: with the `Authorization` header present but equal to
the empty string, the guard answers `Unauthenticated` (401) although the
header is not absent — the JS falsiness test `if (!token)` also fires on
`""` — so "fails with 401 exactly when the header is absent" is false. -/
theorem verifyToken_claim_counterexample :
    ¬ ((verifyToken (fun _ => some 0) (some "") = AuthOutcome.unauthenticated)
        ↔ (some "" : Option String) = none) := by
  decide

/-- C6 (amended): the guard fails with `Unauthenticated` (401) exactly when
the `Authorization` header is absent or empty; otherwise it strips an
optional `"Bearer "` prefix and verifies the remaining token, failing with
`InvalidToken` (400) exactly when verification fails, and on success
attaches exactly the decoded identity and continues. -/
theorem verifyToken_contract (verify : String → Option Nat)
    (header : Option String) :
    (verifyToken verify header = .unauthenticated ↔
      header = none ∨ header = some "") ∧
    ∀ t, header = some t → t ≠ "" →
      (verifyToken verify header = .invalidToken ↔
        verify (stripBearer t) = none) ∧
      ∀ i, verifyToken verify header = .authed i ↔
        verify (stripBearer t) = some i := by
  constructor
  · cases header with
    | none => simp [verifyToken]
    | some t =>
      by_cases ht : t = ""
      · subst ht; simp [verifyToken]
      · cases hv : verify (stripBearer t) with
        | none => simp [verifyToken, ht, hv]
        | some i => simp [verifyToken, ht, hv]
  · rintro t rfl ht
    cases hv : verify (stripBearer t) with
    | none => simp [verifyToken, ht, hv]
    | some i => simp [verifyToken, ht, hv]

/-- C6 witness: the amended contract applied to a concrete verifier and a
concrete `Bearer`-prefixed header. -/
theorem verifyToken_contract_witness :
    verifyToken (fun s => if s = "tok123" then some 7 else none)
      (some "Bearer tok123") = AuthOutcome.authed 7 := by
  have h := verifyToken_contract
    (fun s => if s = "tok123" then some 7 else none) (some "Bearer tok123")
  exact (((h.2 "Bearer tok123" rfl (by decide)).2 7)).mpr (by decide)

/-- C7: a login whose email matches no user and a login with an existing
email but a wrong password both fail with status 400 and the message
`"Invalid email or password."`, and the two failure responses are
identical. -/
theorem login_uniform_failure (db : List User) (sign : Nat → String)
    (e1 p1 e2 p2 : String) (u : User)
    (h1 : findByEmail db e1 = none)
    (h2 : findByEmail db e2 = some u)
    (h3 : u.password ≠ some p2) :
    login db sign e1 p1 = .failure 400 "Invalid email or password." ∧
    login db sign e2 p2 = .failure 400 "Invalid email or password." ∧
    login db sign e1 p1 = login db sign e2 p2 := by
  have l1 : login db sign e1 p1 = .failure 400 "Invalid email or password." := by
    simp [login, h1]
  have l2 : login db sign e2 p2 = .failure 400 "Invalid email or password." := by
    simp [login, h2, h3]
  exact ⟨l1, l2, l1.trans l2.symm⟩

/-- C7 witness: the uniform-failure theorem applied to a one-user store, a
missing email, and a wrong password for the existing email. -/
theorem login_uniform_failure_witness :
    login [registerUser 1 "Alice" "alice@x.com" "pw"] (fun _ => "tok")
        "bob@x.com" "pw" =
      .failure 400 "Invalid email or password." ∧
    login [registerUser 1 "Alice" "alice@x.com" "pw"] (fun _ => "tok")
        "alice@x.com" "wrong" =
      .failure 400 "Invalid email or password." ∧
    login [registerUser 1 "Alice" "alice@x.com" "pw"] (fun _ => "tok")
        "bob@x.com" "pw" =
      login [registerUser 1 "Alice" "alice@x.com" "pw"] (fun _ => "tok")
        "alice@x.com" "wrong" :=
  login_uniform_failure [registerUser 1 "Alice" "alice@x.com" "pw"]
    (fun _ => "tok") "bob@x.com" "pw" "alice@x.com" "wrong"
    (registerUser 1 "Alice" "alice@x.com" "pw")
    (by decide) (by decide) (by decide)

/-- C9: when the authenticated id resolves to no user document, the
news and appointments list endpoints answer 500 (the `null` result is
dereferenced inside the `try` block), while the user-profile and
saved-pages endpoints answer an explicit 404. -/
theorem missing_user_status_codes (db : List User) (uid : Nat)
    (h : findById db uid = none) :
    (getNews db uid).status = 500 ∧
    (getAppointments db uid).status = 500 ∧
    (getUserProfile db uid).status = 404 ∧
    (getMySavedPages db uid).status = 404 := by
  simp [getNews, getAppointments, getUserProfile, getMySavedPages, h,
    HResult.status]

/-- C9 witness: the status split on the empty store. -/
theorem missing_user_status_codes_witness :
    (getNews [] 0).status = 500 ∧
    (getAppointments [] 0).status = 500 ∧
    (getUserProfile [] 0).status = 404 ∧
    (getMySavedPages [] 0).status = 404 :=
  missing_user_status_codes [] 0 rfl

/-- C4: for a resolved user, the news and appointments list endpoints
return the stored sub-list reversed (last-appended first); in particular,
appending appointment A then B to a user with no appointments and then
listing returns [B, A]. -/
theorem histories_reverse_order :
    (∀ (db : List User) (uid : Nat) (u : User), findById db uid = some u →
      getNews db uid = .ok u.newsHistory.reverse ∧
      getAppointments db uid = .ok u.appointmentHistory.reverse) ∧
    ∀ (u : User) (a b : ApptBody) (ta sa tb sb : Nat) (db : List User)
      (uid : Nat),
      u.appointmentHistory = [] →
      findById db uid =
        some (addAppointment (addAppointment u a ta sa).1 b tb sb).1 →
      getAppointments db uid =
        .ok [{ subId := sb, doctor := b.doctor, type := b.type,
               date := b.date, status := b.status.getD "Upcoming",
               addedAt := tb },
             { subId := sa, doctor := a.doctor, type := a.type,
               date := a.date, status := a.status.getD "Upcoming",
               addedAt := ta }] := by
  constructor
  · intro db uid u h
    exact ⟨by simp [getNews, h], by simp [getAppointments, h]⟩
  · intro u a b ta sa tb sb db uid h0 hf
    simp [getAppointments, hf, addAppointment, h0]

/-- C4 witness: appointments A then B on a fresh user are listed as
[B, A]. -/
theorem histories_reverse_order_witness :
    getAppointments
      [(addAppointment
          (addAppointment (registerUser 1 "Ann" "ann@x.com" "pw")
            { doctor := some "Dr. A", type := some "General",
              date := some "2025-01-10", status := none } 10 1).1
          { doctor := some "Dr. B", type := some "Cardiology",
            date := some "2025-02-11", status := some "Completed" } 20 2).1] 1 =
      .ok [{ subId := 2, doctor := some "Dr. B", type := some "Cardiology",
             date := some "2025-02-11", status := "Completed",
             addedAt := 20 },
           { subId := 1, doctor := some "Dr. A", type := some "General",
             date := some "2025-01-10", status := "Upcoming",
             addedAt := 10 }] := by
  have h := histories_reverse_order.2 (registerUser 1 "Ann" "ann@x.com" "pw")
    { doctor := some "Dr. A", type := some "General",
      date := some "2025-01-10", status := none }
    { doctor := some "Dr. B", type := some "Cardiology",
      date := some "2025-02-11", status := some "Completed" }
    10 1 20 2
    [(addAppointment
        (addAppointment (registerUser 1 "Ann" "ann@x.com" "pw")
          { doctor := some "Dr. A", type := some "General",
            date := some "2025-01-10", status := none } 10 1).1
        { doctor := some "Dr. B", type := some "Cardiology",
          date := some "2025-02-11", status := some "Completed" } 20 2).1] 1
    rfl (by decide)
  simpa using h

/-- C5: for each of the three sub-lists, delete-by-id keeps exactly the
entries whose sub-id differs from the path parameter (a kept entry list
that is a sublist of the original, so order and multiplicity of kept
entries are preserved), leaves every other field of the document
unchanged, and answers the generic success message unconditionally — in
particular even when no entry matched. -/
theorem delete_by_id_filters_and_succeeds (u : User) (i : Nat) :
    ((deleteSavedPage u i).2 = ⟨200, "Item deleted successfully"⟩ ∧
      (∀ e, e ∈ (deleteSavedPage u i).1.savedData ↔
        e ∈ u.savedData ∧ e.subId ≠ i) ∧
      (deleteSavedPage u i).1.savedData.Sublist u.savedData ∧
      (deleteSavedPage u i).1 =
        { u with savedData := (deleteSavedPage u i).1.savedData }) ∧
    ((deleteNews u i).2 = ⟨200, "News deleted"⟩ ∧
      (∀ e, e ∈ (deleteNews u i).1.newsHistory ↔
        e ∈ u.newsHistory ∧ e.subId ≠ i) ∧
      (deleteNews u i).1.newsHistory.Sublist u.newsHistory ∧
      (deleteNews u i).1 =
        { u with newsHistory := (deleteNews u i).1.newsHistory }) ∧
    ((deleteAppointment u i).2 = ⟨200, "Appointment deleted"⟩ ∧
      (∀ e, e ∈ (deleteAppointment u i).1.appointmentHistory ↔
        e ∈ u.appointmentHistory ∧ e.subId ≠ i) ∧
      (deleteAppointment u i).1.appointmentHistory.Sublist
        u.appointmentHistory ∧
      (deleteAppointment u i).1 =
        { u with appointmentHistory :=
            (deleteAppointment u i).1.appointmentHistory }) := by
  refine ⟨⟨rfl, ?_, ?_, rfl⟩, ⟨rfl, ?_, ?_, rfl⟩, ⟨rfl, ?_, ?_, rfl⟩⟩
  · intro e
    simp [deleteSavedPage, List.mem_filter]
  · exact List.filter_sublist _
  · intro e
    simp [deleteNews, List.mem_filter]
  · exact List.filter_sublist _
  · intro e
    simp [deleteAppointment, List.mem_filter]
  · exact List.filter_sublist _

/-- C2: a save-page request whose `pageData.url` equals the `content.url`
of some existing `savedData` entry fails with status 400 (the
duplicate-save message) and leaves the document unchanged; consequently on
every document reachable through the exposed endpoints, no two `savedData`
entries share the same `content.url` once present. -/
theorem savePage_dedup_and_url_invariant :
    (∀ (u : User) (b : SaveBody) (now subId : Nat),
      (∃ e ∈ u.savedData, contentUrl e = b.pageData.url) →
      savePage u b now subId =
        (u, ⟨400, "You have already saved this article."⟩)) ∧
    ∀ u : User, Reachable u → NoDupUrls u := by
  constructor
  · rintro u b now subId ⟨e, he, hurl⟩
    have hd : (u.savedData.any fun item =>
        contentUrl item == b.pageData.url) = true :=
      List.any_eq_true.mpr ⟨e, he, by simp [hurl]⟩
    simp [savePage, hd]
  · intro u h
    induction h with
    | register id fn em pw =>
      simp [NoDupUrls, registerUser]
    | update u body file now _ ih => exact ih
    | save u b now subId _ ih =>
      cases hd : u.savedData.any fun item =>
          contentUrl item == b.pageData.url with
      | true =>
        have h1 : (savePage u b now subId).1 = u := by simp [savePage, hd]
        rw [h1]; exact ih
      | false =>
        have hnone : ∀ e ∈ u.savedData, contentUrl e ≠ b.pageData.url := by
          intro e he
          have := List.any_eq_false.mp hd e he
          simpa using this
        have h1 : (savePage u b now subId).1 =
            { u with savedData := u.savedData ++
              [{ subId := subId, title := jsOr b.title "Untitled",
                 informationType := jsOr b.informationType "General",
                 content := some b.pageData, savedAt := now }] } := by
          simp [savePage, hd]
        rw [h1]
        unfold NoDupUrls at ih ⊢
        rw [List.pairwise_append]
        refine ⟨ih, by simp, ?_⟩
        intro a ha b' hb' s hs
        simp only [List.mem_singleton] at hb'
        subst hb'
        show contentUrl _ ≠ some s
        have hb : contentUrl
            { subId := subId, title := jsOr b.title "Untitled",
              informationType := jsOr b.informationType "General",
              content := some b.pageData, savedAt := now } =
            b.pageData.url := rfl
        rw [hb]
        intro hcon
        exact hnone a ha (hs.trans hcon.symm)
    | deletePage u i _ ih =>
      exact List.Pairwise.sublist (List.filter_sublist _) ih
    | news u b now subId _ ih => exact ih
    | dropNews u i _ ih => exact ih
    | appt u b now subId _ ih => exact ih
    | dropAppt u i _ ih => exact ih

/-- C2 witness: re-saving the same url on a register-then-save document is
rejected with the document unchanged, and that reachable document
satisfies the no-duplicate-url invariant. -/
theorem savePage_dedup_and_url_invariant_witness :
    savePage
      (savePage (registerUser 1 "Ann" "ann@x.com" "pw")
        { title := some "First", pageData := { url := some "http://x", rest := "r1" },
          informationType := none } 3 5).1
      { title := some "Second", pageData := { url := some "http://x", rest := "r2" },
        informationType := some "General" } 7 9 =
      ((savePage (registerUser 1 "Ann" "ann@x.com" "pw")
        { title := some "First", pageData := { url := some "http://x", rest := "r1" },
          informationType := none } 3 5).1,
       ⟨400, "You have already saved this article."⟩) ∧
    NoDupUrls
      (savePage (registerUser 1 "Ann" "ann@x.com" "pw")
        { title := some "First", pageData := { url := some "http://x", rest := "r1" },
          informationType := none } 3 5).1 := by
  constructor
  · exact savePage_dedup_and_url_invariant.1 _ _ 7 9
      ⟨{ subId := 5, title := "First", informationType := "General",
         content := some { url := some "http://x", rest := "r1" }, savedAt := 3 },
       by decide, by decide⟩
  · exact savePage_dedup_and_url_invariant.2 _
      (Reachable.save _ _ 3 5 (Reachable.register 1 "Ann" "ann@x.com" "pw"))

/-- C3: the saved-pages endpoint returns a permutation of `savedData`
sorted descending by `savedAt`; in particular saving two pages at times
T1 < T2 into an empty list and listing returns the T2 entry before the T1
entry. -/
theorem my_saved_pages_sorted_desc :
    (∀ u : User,
      List.Perm (sortSaved u.savedData) u.savedData ∧
      (sortSaved u.savedData).Pairwise fun a b => b.savedAt ≤ a.savedAt) ∧
    (∀ (db : List User) (uid : Nat) (u : User), findById db uid = some u →
      getMySavedPages db uid = .ok (sortSaved u.savedData)) ∧
    ∀ (u : User) (b1 b2 : SaveBody) (t1 s1 t2 s2 : Nat),
      u.savedData = [] → t1 < t2 →
      b1.pageData.url ≠ b2.pageData.url →
      sortSaved (savePage (savePage u b1 t1 s1).1 b2 t2 s2).1.savedData =
        [{ subId := s2, title := jsOr b2.title "Untitled",
           informationType := jsOr b2.informationType "General",
           content := some b2.pageData, savedAt := t2 },
         { subId := s1, title := jsOr b1.title "Untitled",
           informationType := jsOr b1.informationType "General",
           content := some b1.pageData, savedAt := t1 }] := by
  refine ⟨?_, ?_, ?_⟩
  · intro u
    refine ⟨List.mergeSort_perm u.savedData savedLe, ?_⟩
    have h := List.sorted_mergeSort savedLe_trans savedLe_total u.savedData
    exact h.imp fun hab => by simpa [savedLe] using hab
  · intro db uid u h
    simp [getMySavedPages, h]
  · intro u b1 b2 t1 s1 t2 s2 h0 hlt hne
    have h1 : (savePage u b1 t1 s1).1 =
        { u with savedData :=
          [{ subId := s1, title := jsOr b1.title "Untitled",
             informationType := jsOr b1.informationType "General",
             content := some b1.pageData, savedAt := t1 }] } := by
      simp [savePage, h0]
    have hbeq : (b1.pageData.url == b2.pageData.url) = false :=
      beq_eq_false_iff_ne.mpr hne
    have h2 : (savePage (savePage u b1 t1 s1).1 b2 t2 s2).1 =
        { u with savedData :=
          [{ subId := s1, title := jsOr b1.title "Untitled",
             informationType := jsOr b1.informationType "General",
             content := some b1.pageData, savedAt := t1 },
           { subId := s2, title := jsOr b2.title "Untitled",
             informationType := jsOr b2.informationType "General",
             content := some b2.pageData, savedAt := t2 }] } := by
      rw [h1]
      simp [savePage, contentUrl, hbeq]
    rw [h2]
    have hle : savedLe
        { subId := s1, title := jsOr b1.title "Untitled",
          informationType := jsOr b1.informationType "General",
          content := some b1.pageData, savedAt := t1 }
        { subId := s2, title := jsOr b2.title "Untitled",
          informationType := jsOr b2.informationType "General",
          content := some b2.pageData, savedAt := t2 } = false := by
      simp only [savedLe, decide_eq_false_iff_not]
      omega
    exact mergeSort_pair savedLe _ _ hle

/-- C3 witness: two saves at times 3 < 8 on a fresh user are listed with
the time-8 entry first. -/
theorem my_saved_pages_sorted_desc_witness :
    sortSaved (savePage
        (savePage (registerUser 1 "Ann" "ann@x.com" "pw")
          { title := some "One", pageData := { url := some "http://a", rest := "" },
            informationType := none } 3 5).1
        { title := none, pageData := { url := some "http://b", rest := "" },
          informationType := some "Cardio" } 8 6).1.savedData =
      [{ subId := 6, title := "Untitled", informationType := "Cardio",
         content := some { url := some "http://b", rest := "" }, savedAt := 8 },
       { subId := 5, title := "One", informationType := "General",
         content := some { url := some "http://a", rest := "" }, savedAt := 3 }] := by
  have h := my_saved_pages_sorted_desc.2.2 (registerUser 1 "Ann" "ann@x.com" "pw")
    { title := some "One", pageData := { url := some "http://a", rest := "" },
      informationType := none }
    { title := none, pageData := { url := some "http://b", rest := "" },
      informationType := some "Cardio" } 3 5 8 6 rfl (by decide) (by decide)
  simpa [jsOr] using h

/-- C10: a save-page request whose `pageData.url` is absent is rejected as
a duplicate (400, document unchanged) whenever some existing entry also
has no `content.url` — including entries whose `content` is absent — since
the check compares `undefined` to `undefined`; hence a document with at
most one url-less entry can never come to hold two of them. -/
theorem urlless_save_semantics :
    (∀ (u : User) (b : SaveBody) (now subId : Nat),
      b.pageData.url = none →
      (∃ e ∈ u.savedData, contentUrl e = none) →
      savePage u b now subId =
        (u, ⟨400, "You have already saved this article."⟩)) ∧
    ∀ (u : User) (b : SaveBody) (now subId : Nat),
      (u.savedData.countP fun e => (contentUrl e).isNone) ≤ 1 →
      ((savePage u b now subId).1.savedData.countP
        fun e => (contentUrl e).isNone) ≤ 1 := by
  constructor
  · rintro u b now subId hb ⟨e, he, hurl⟩
    have hd : (u.savedData.any fun item =>
        contentUrl item == b.pageData.url) = true :=
      List.any_eq_true.mpr ⟨e, he, by simp [hurl, hb]⟩
    simp [savePage, hd]
  · intro u b now subId h
    cases hd : u.savedData.any fun item =>
        contentUrl item == b.pageData.url with
    | true =>
      have h1 : (savePage u b now subId).1 = u := by simp [savePage, hd]
      rw [h1]; exact h
    | false =>
      have h1 : (savePage u b now subId).1 =
          { u with savedData := u.savedData ++
            [{ subId := subId, title := jsOr b.title "Untitled",
               informationType := jsOr b.informationType "General",
               content := some b.pageData, savedAt := now }] } := by
        simp [savePage, hd]
      rw [h1]
      simp only [List.countP_append]
      cases hurl : b.pageData.url with
      | none =>
        have hzero : (u.savedData.countP fun e => (contentUrl e).isNone) = 0 := by
          rw [List.countP_eq_zero]
          intro e he
          have := List.any_eq_false.mp hd e he
          rw [hurl] at this
          simpa [Option.isNone_iff_eq_none] using this
        rw [hzero]
        simp [contentUrl, List.countP_cons, hurl]
      | some s =>
        have hone : (List.countP (fun e => (contentUrl e).isNone)
            [{ subId := subId, title := jsOr b.title "Untitled",
               informationType := jsOr b.informationType "General",
               content := some b.pageData, savedAt := now }]) = 0 := by
          simp [contentUrl, List.countP_cons, hurl]
        omega

/-- C10 witness: with one stored entry whose `content` is absent, a second
url-less save is rejected unchanged; and the at-most-one bound is
preserved by a url-less save on a fresh document. -/
theorem urlless_save_semantics_witness :
    savePage
      { registerUser 1 "Ann" "ann@x.com" "pw" with savedData :=
          [{ subId := 4, title := "Old", informationType := "General",
             content := none, savedAt := 2 }] }
      { title := some "New", pageData := { url := none, rest := "body" },
        informationType := none } 9 11 =
      ({ registerUser 1 "Ann" "ann@x.com" "pw" with savedData :=
          [{ subId := 4, title := "Old", informationType := "General",
             content := none, savedAt := 2 }] },
       ⟨400, "You have already saved this article."⟩) ∧
    ((savePage (registerUser 1 "Ann" "ann@x.com" "pw")
        { title := some "New", pageData := { url := none, rest := "body" },
          informationType := none } 9 11).1.savedData.countP
      fun e => (contentUrl e).isNone) ≤ 1 := by
  constructor
  · exact urlless_save_semantics.1 _ _ 9 11 rfl
      ⟨{ subId := 4, title := "Old", informationType := "General",
         content := none, savedAt := 2 }, by decide, by decide⟩
  · exact urlless_save_semantics.2 (registerUser 1 "Ann" "ann@x.com" "pw")
      _ 9 11 (by decide)

end Sympto
